import Mathlib

/-!
Shallow embedding of the woloo-backend HTTP service (src/server.js, two
near-identical copies of the same Express app, plus src/seed.js).

Modelling conventions:
* The document store (MongoDB) is a `StoreState` holding the `lesson` and
  `order` collections as Lean lists; `find` with a filter is `List.filter`,
  `findOneAndUpdate` updates the first matching document, and `insertOne`
  appends a document with a fresh server-assigned identifier drawn from a
  counter (modelling the driver's unique ObjectId generation).
* JSON values stored in lesson fields are modelled by `BVal`
  (string / numeric / null).  Stored numeric values are integers (the
  seeded data and the values the API writes).  JavaScript's `Number(q)`
  string conversion is modelled by `jsNumber`, covering its full grammar —
  optional sign, decimal digits with optional fraction and exponent,
  hexadecimal / octal / binary literals, `Infinity` — evaluated exactly:
  the result is classified as the integer it denotes or as `JsNum.nonInt`
  (a finite non-integer or an infinity), which equals no stored integer.
  IEEE-754 rounding and overflow of extreme literals are not modelled;
  arithmetic here is exact.
* Absent request-body fields are `Option.none`.  A body field holding a
  JSON value of an unexpected type is modelled only where a claim needs it.
* JavaScript whitespace (`\s`, `String.prototype.trim`) is modelled by the
  ASCII whitespace characters; the exotic Unicode space code points play no
  role in any claim.
* `ObjectId.createFromHexString` and `new ObjectId(...)` accept exactly the
  24-character hexadecimal strings and throw otherwise; a thrown exception
  propagates to the route's outer `catch`, which answers 500.
* `Number.isNaN(x)` is `false` for every non-number `x`, in particular for
  an `ObjectId`; the embedding hard-codes that constant where the source
  applies `Number.isNaN` to the result of `createFromHexString`.
* The driver's `findOneAndUpdate` result is modelled value-wrapped (the
  `result.value` access pattern of the source): found means the post-update
  document is returned, not found means a null `value`.
-/

namespace Woloo

/-- A stored JSON scalar: string, (integer) number, or null. -/
inductive BVal where
  | str (s : String)
  | num (n : Int)
  | null
deriving DecidableEq, Repr

/-- A document `_id`: either a proper ObjectId (normalised lowercase
24-char hex) or a raw string id (the historical-data case the PUT
handler's fallback covers). -/
inductive DocId where
  | oid (hex : String)
  | strId (s : String)
deriving DecidableEq, Repr

/-- ASCII JavaScript whitespace (the characters of `\s` that matter here). -/
def jsWhitespace (c : Char) : Bool :=
  c = ' ' || c = '\t' || c = '\n' || c = '\r' || c = '\x0b' || c = '\x0c'

/-- Drop trailing characters satisfying `p` (right-hand counterpart of
`List.dropWhile`). -/
def dropEndWhile (p : Char → Bool) : List Char → List Char
  | [] => []
  | c :: t =>
    let r := dropEndWhile p t
    if r.isEmpty && p c then [] else c :: r

/-- JavaScript `String.prototype.trim`: strip leading and trailing
whitespace. -/
def jsTrim (s : String) : String :=
  String.mk (dropEndWhile jsWhitespace (s.toList.dropWhile jsWhitespace))

/-- Hexadecimal digit (either case). -/
def isHexDigit (c : Char) : Bool :=
  c.isDigit || ('a' ≤ c && c ≤ 'f') || ('A' ≤ c && c ≤ 'F')

/-- A string the bson library accepts as an ObjectId: exactly 24 hex
characters. -/
def isValidHex24 (s : String) : Bool :=
  s.length = 24 && s.toList.all isHexDigit

/-- ASCII lower-casing (character-list form of `String.toLower`). -/
def lowerString (s : String) : String :=
  String.mk (s.toList.map Char.toLower)

/-- Parse `new ObjectId(id)` : succeeds exactly on 24-char hex strings,
normalising case; `none` models the constructor throwing. -/
def parseObjectId (s : String) : Option DocId :=
  if isValidHex24 s then some (DocId.oid (lowerString s)) else none

/-- A lesson document (the fields written by seed.js and by the PUT
handler's allow-list). -/
structure Lesson where
  _id : DocId
  subject : BVal
  location : BVal
  price : BVal
  spaces : BVal
  image : BVal
deriving DecidableEq, Repr

/-- One line item of an order request: `lessonId` and `quantity` may each
be absent. -/
structure OrderItem where
  lessonId : Option String
  quantity : Option BVal
deriving DecidableEq, Repr

/-- A persisted order document; `_id` is the server-assigned identifier
and `createdAt` the server timestamp. -/
structure OrderDoc where
  _id : Nat
  name : String
  phone : String
  items : List OrderItem
  createdAt : Nat
deriving DecidableEq, Repr

/-- The parsed body of a POST /orders request (absent fields are `none`;
`items = none` also models a non-array value, which fails
`Array.isArray`). -/
structure OrderBody where
  name : Option String
  phone : Option String
  items : Option (List OrderItem)
deriving DecidableEq, Repr

/-- The document store: the `lesson` and `order` collections plus the
fresh-identifier counter modelling ObjectId generation for inserts. -/
structure StoreState where
  lessons : List Lesson
  orders : List OrderDoc
  nextId : Nat
deriving DecidableEq, Repr

/-! ### GET /lessons -/

/-- GET /lessons : `lessons.find({}).toArray()` — the whole collection in
store order. -/
def getLessons (st : StoreState) : List Lesson :=
  st.lessons

/-! ### GET /search -/

/-- Case-insensitive literal substring test on character lists. -/
def containsChars (pat : List Char) : List Char → Bool
  | [] => pat.isEmpty
  | c :: rest => pat.isPrefixOf (c :: rest) || containsChars pat rest

/-- The test performed by `new RegExp(escaped, 'i')` after every regex
metacharacter of the query has been escaped: case-insensitive literal
substring containment. -/
def containsCI (hay pat : String) : Bool :=
  containsChars pat.toLower.toList hay.toLower.toList

/-- A `$regex` clause on a document field: matches only string values. -/
def regexClause (v : BVal) (pat : String) : Bool :=
  match v with
  | BVal.str s => containsCI s pat
  | _ => false

/-- Digit run to a natural number (base 10). -/
def digitsVal (ds : List Char) : Nat :=
  ds.foldl (fun a c => a * 10 + (c.toNat - '0'.toNat)) 0

/-- Value of a hexadecimal digit (either case). -/
def hexDigitVal (c : Char) : Nat :=
  if c.isDigit then c.toNat - '0'.toNat
  else if 'a' ≤ c && c ≤ 'f' then c.toNat - 'a'.toNat + 10
  else if 'A' ≤ c && c ≤ 'F' then c.toNat - 'A'.toNat + 10
  else 0

/-- Digit run to a natural number in the given radix. -/
def radixVal (r : Nat) (ds : List Char) : Nat :=
  ds.foldl (fun a c => a * r + hexDigitVal c) 0

/-- Octal digit. -/
def isOctDigit (c : Char) : Bool := '0' ≤ c && c ≤ '7'

/-- Binary digit. -/
def isBinDigit (c : Char) : Bool := c = '0' || c = '1'

/-- The value `Number(q)` produces, as far as equality with the stored
integers can see it: either the integer it denotes exactly, or a
non-integer JavaScript number (a finite fraction or an infinity), which
is equal to no stored integer. -/
inductive JsNum where
  | int (n : Int)
  | nonInt
deriving DecidableEq, Repr

/-- Exact value of a signed decimal literal with integer digits `ip`,
fraction digits `fp` and decimal exponent `ex`:
`sign * digits(ip ++ fp) * 10 ^ (ex - |fp|)`, classified as an integer or
not. -/
def decimalValue (sign : Int) (ip fp : List Char) (ex : Int) : JsNum :=
  let m : Nat := digitsVal (ip ++ fp)
  let k : Int := ex - fp.length
  if m = 0 then JsNum.int 0
  else if 0 ≤ k then JsNum.int (sign * (m : Int) * (10 : Int) ^ k.toNat)
  else
    let d : Nat := 10 ^ (-k).toNat
    if d ∣ m then JsNum.int (sign * ((m / d : Nat) : Int)) else JsNum.nonInt

/-- Parse the optional exponent part (`e`/`E`, optional sign, digits)
after the digits `ip` and fraction `fp` of a decimal literal; anything
else trailing makes the whole literal NaN. -/
def parseExpOpt (sign : Int) (ip fp : List Char) (rest : List Char) : Option JsNum :=
  if ip.isEmpty && fp.isEmpty then none
  else
    match rest with
    | [] => some (decimalValue sign ip fp 0)
    | e :: rest2 =>
      if e = 'e' || e = 'E' then
        match rest2 with
        | '+' :: ds =>
          if !ds.isEmpty && ds.all Char.isDigit then
            some (decimalValue sign ip fp (digitsVal ds)) else none
        | '-' :: ds =>
          if !ds.isEmpty && ds.all Char.isDigit then
            some (decimalValue sign ip fp (-(digitsVal ds : Int))) else none
        | ds =>
          if !ds.isEmpty && ds.all Char.isDigit then
            some (decimalValue sign ip fp (digitsVal ds)) else none
      else none

/-- Parse a decimal literal (after any sign): digits, optional
`. digits`, optional exponent. -/
def parseDecimal (sign : Int) (cs : List Char) : Option JsNum :=
  let p := cs.span Char.isDigit
  match p.2 with
  | '.' :: rest2 =>
    let q := rest2.span Char.isDigit
    parseExpOpt sign p.1 q.1 q.2
  | _ => parseExpOpt sign p.1 [] p.2

/-- The character list of the `Infinity` literal. -/
def infinityChars : List Char := ['I', 'n', 'f', 'i', 'n', 'i', 't', 'y']

/-- JavaScript `Number(q)` on the trimmed query string, following the
StringNumericLiteral grammar: empty is 0, unsigned hexadecimal / octal /
binary literals, an optional sign followed by `Infinity` or a decimal
literal with optional fraction and exponent; `none` models NaN. -/
def jsNumber (s : String) : Option JsNum :=
  match s.toList with
  | [] => some (JsNum.int 0)
  | '0' :: x :: rest =>
    if x = 'x' || x = 'X' then
      if !rest.isEmpty && rest.all isHexDigit then some (JsNum.int (radixVal 16 rest)) else none
    else if x = 'o' || x = 'O' then
      if !rest.isEmpty && rest.all isOctDigit then some (JsNum.int (radixVal 8 rest)) else none
    else if x = 'b' || x = 'B' then
      if !rest.isEmpty && rest.all isBinDigit then some (JsNum.int (radixVal 2 rest)) else none
    else parseDecimal 1 ('0' :: x :: rest)
  | '+' :: rest =>
    if rest = infinityChars then some JsNum.nonInt else parseDecimal 1 rest
  | '-' :: rest =>
    if rest = infinityChars then some JsNum.nonInt else parseDecimal (-1) rest
  | cs =>
    if cs = infinityChars then some JsNum.nonInt else parseDecimal 1 cs

/-- Mongo equality of a stored field value with the query number: only an
integer-valued query number can equal a stored (integer) numeric field. -/
def jsNumEq (v : BVal) (q : JsNum) : Bool :=
  match v, q with
  | BVal.num n, JsNum.int m => decide (n = m)
  | _, _ => false

/-- The `$or` filter built by the search handler: subject regex, location
regex, and — when the query is numeric — price and spaces equality. -/
def lessonMatches (t : String) (l : Lesson) : Bool :=
  regexClause l.subject t || regexClause l.location t ||
    (match jsNumber t with
     | some n => jsNumEq l.price n || jsNumEq l.spaces n
     | none => false)

/-- GET /search : trim the query (`(req.query.q || '').toString().trim()`),
return everything on an empty result, otherwise filter by the `$or`
criteria. -/
def searchLessons (q : Option String) (st : StoreState) : List Lesson :=
  let t := jsTrim (q.getD "")
  if t = "" then st.lessons
  else st.lessons.filter (lessonMatches t)

/-! ### POST /orders -/

/-- The name check `!name || !/^[A-Za-z\s]+$/.test(name)` : present,
nonempty, and every character a letter or whitespace. -/
def nameOk : Option String → Bool
  | some s => !s.isEmpty && s.toList.all (fun c => c.isAlpha || jsWhitespace c)
  | none => false

/-- The phone check `!phone || !/^\d+$/.test(phone)` : present, nonempty,
all digits. -/
def phoneOk : Option String → Bool
  | some s => !s.isEmpty && s.toList.all Char.isDigit
  | none => false

/-- The value of `Number.isNaN` applied to an ObjectId object: always `false` (the
argument is not a number).  Named so the item-validation embedding mirrors
the source expression. -/
def numberIsNaNObjectId : Bool := false

/-- Outcome of the `for (const it of items)` validation loop. -/
inductive ItemsCheck where
  | passed
  | badLessonId
  | badQuantity
  | thrown
deriving DecidableEq, Repr

/-- The item-validation loop.  For each item in order:
`!it.lessonId` (absent or empty string, both falsy) answers 400
"Invalid lessonId"; otherwise `ObjectId.createFromHexString(it.lessonId)`
throws on a malformed id (`thrown`, surfacing as the route's 500), and on
a well-formed id `Number.isNaN(<ObjectId>)` is `false`, so the check falls
through to the quantity test `!Number.isInteger(q) || q <= 0`. -/
def checkItems : List OrderItem → ItemsCheck
  | [] => ItemsCheck.passed
  | it :: rest =>
    match it.lessonId with
    | none => ItemsCheck.badLessonId
    | some lid =>
      if lid = "" then ItemsCheck.badLessonId
      else if !isValidHex24 lid then ItemsCheck.thrown
      else if numberIsNaNObjectId then ItemsCheck.badLessonId
      else
        match it.quantity with
        | some (BVal.num k) =>
          if k ≤ 0 then ItemsCheck.badQuantity else checkItems rest
        | _ => ItemsCheck.badQuantity

/-- Response of the POST /orders route: HTTP status, the `error` body
field for failures, and the created document (echoed with its `_id`) on
success. -/
structure OrdersResponse where
  status : Nat
  error : Option String
  created : Option OrderDoc
deriving DecidableEq, Repr

/-- The order document `{ name, phone, items, createdAt }` as persisted by
`insertOne`, with the server-assigned `_id`. -/
def mkOrderDoc (b : OrderBody) (now : Nat) (st : StoreState) : OrderDoc :=
  { _id := st.nextId
    name := b.name.getD ""
    phone := b.phone.getD ""
    items := b.items.getD []
    createdAt := now }

/-- POST /orders : the validation cascade, then `insertOne` and a 201 with
the created document.  A malformed (present, nonempty, non-24-hex)
`lessonId` makes `createFromHexString` throw, which the outer catch turns
into the 500 "Failed to create order". -/
def postOrders (b : OrderBody) (now : Nat) (st : StoreState) :
    OrdersResponse × StoreState :=
  if !nameOk b.name then
    ({ status := 400, error := some "Invalid name", created := none }, st)
  else if !phoneOk b.phone then
    ({ status := 400, error := some "Invalid phone", created := none }, st)
  else
    match b.items with
    | none => ({ status := 400, error := some "No items in order", created := none }, st)
    | some its =>
      if its.isEmpty then
        ({ status := 400, error := some "No items in order", created := none }, st)
      else
        match checkItems its with
        | ItemsCheck.badLessonId =>
          ({ status := 400, error := some "Invalid lessonId", created := none }, st)
        | ItemsCheck.badQuantity =>
          ({ status := 400, error := some "Invalid quantity", created := none }, st)
        | ItemsCheck.thrown =>
          ({ status := 500, error := some "Failed to create order", created := none }, st)
        | ItemsCheck.passed =>
          let doc := mkOrderDoc b now st
          ({ status := 201, error := none, created := some doc },
           { st with orders := st.orders ++ [doc], nextId := st.nextId + 1 })

/-- All validation checks of POST /orders pass. -/
def validOrder (b : OrderBody) : Bool :=
  nameOk b.name && phoneOk b.phone &&
    (match b.items with
     | none => false
     | some its => !its.isEmpty && decide (checkItems its = ItemsCheck.passed))

/-! ### PUT /lessons/:id -/

/-- The `$set` document built by the allow-list loop
`for (const k of allowed) if (hasOwnProperty(req.body, k)) set[k] = body[k]`:
one optional value per allow-listed key. -/
structure SetDoc where
  subject : Option BVal
  location : Option BVal
  price : Option BVal
  spaces : Option BVal
  image : Option BVal
deriving DecidableEq, Repr

/-- The emptiness test `Object.keys(set).length === 0`. -/
def SetDoc.isEmptySet (s : SetDoc) : Bool :=
  s.subject.isNone && s.location.isNone && s.price.isNone &&
    s.spaces.isNone && s.image.isNone

/-- The fixed allow-list of updatable fields. -/
def allowedFields : List String :=
  ["subject", "location", "price", "spaces", "image"]

/-- Build the `$set` document from the request body (an association list
with the unique keys of a parsed JSON object). -/
def buildSet (body : List (String × BVal)) : SetDoc :=
  { subject := body.lookup "subject"
    location := body.lookup "location"
    price := body.lookup "price"
    spaces := body.lookup "spaces"
    image := body.lookup "image" }

/-- Apply a `$set` document to a lesson: each present key overwrites that
field, all other fields keep their value. -/
def applySet (l : Lesson) (s : SetDoc) : Lesson :=
  { l with
    subject := s.subject.getD l.subject
    location := s.location.getD l.location
    price := s.price.getD l.price
    spaces := s.spaces.getD l.spaces
    image := s.image.getD l.image }

/-- The call `findOneAndUpdate({_id: idv}, {$set: s}, {returnDocument:'after'})` :
update the first document whose `_id` matches, returning the post-update
document and the new collection; `none` when no document matches. -/
def updateFirst (ls : List Lesson) (idv : DocId) (s : SetDoc) :
    Option Lesson × List Lesson :=
  match ls with
  | [] => (none, [])
  | l :: rest =>
    if l._id = idv then
      let upd := applySet l s
      (some upd, upd :: rest)
    else
      let r := updateFirst rest idv s
      (r.1, l :: r.2)

/-- Response of the PUT /lessons/:id route. -/
structure PutResponse where
  status : Nat
  error : Option String
  doc : Option Lesson
deriving DecidableEq, Repr

/-- PUT /lessons/:id, first copy of the source: parse the id
(throwing constructor answered with 400 "Invalid id"), build the
allow-list `$set` (empty answered with 400 "No valid fields to update"),
`findOneAndUpdate` by ObjectId (no match answered with 404
"Lesson not found"), else 200 with the post-update document. -/
def putLessonV1 (st : StoreState) (id : String) (body : List (String × BVal)) :
    PutResponse × StoreState :=
  match parseObjectId id with
  | none => ({ status := 400, error := some "Invalid id", doc := none }, st)
  | some oidv =>
    let s := buildSet body
    if s.isEmptySet then
      ({ status := 400, error := some "No valid fields to update", doc := none }, st)
    else
      match updateFirst st.lessons oidv s with
      | (none, _) =>
        ({ status := 404, error := some "Lesson not found", doc := none }, st)
      | (some d, ls) =>
        ({ status := 200, error := none, doc := some d }, { st with lessons := ls })

/-- PUT /lessons/:id, second copy of the source: identical to
`putLessonV1` except that when the ObjectId lookup finds nothing it
retries the match against the raw string id before answering 404. -/
def putLessonV2 (st : StoreState) (id : String) (body : List (String × BVal)) :
    PutResponse × StoreState :=
  match parseObjectId id with
  | none => ({ status := 400, error := some "Invalid id", doc := none }, st)
  | some oidv =>
    let s := buildSet body
    if s.isEmptySet then
      ({ status := 400, error := some "No valid fields to update", doc := none }, st)
    else
      match updateFirst st.lessons oidv s with
      | (some d, ls) =>
        ({ status := 200, error := none, doc := some d }, { st with lessons := ls })
      | (none, _) =>
        match updateFirst st.lessons (DocId.strId id) s with
        | (some d, ls) =>
          ({ status := 200, error := none, doc := some d }, { st with lessons := ls })
        | (none, _) =>
          ({ status := 404, error := some "Lesson not found", doc := none }, st)

/-! ### Sample data used by concrete witnesses -/

/-- A well-formed 24-character hex ObjectId string. -/
def exOid : String := "aaaaaaaaaaaaaaaaaaaaaaaa"

/-- A seeded-style lesson. -/
def exLesson : Lesson :=
  { _id := DocId.oid exOid
    subject := BVal.str "Math"
    location := BVal.str "Hendon"
    price := BVal.num 90
    spaces := BVal.num 5
    image := BVal.null }

/-- A store holding one lesson and no orders. -/
def exState : StoreState := { lessons := [exLesson], orders := [], nextId := 0 }

/-- The empty store. -/
def emptyState : StoreState := { lessons := [], orders := [], nextId := 0 }

/-- A fully valid POST /orders body. -/
def exValidOrder : OrderBody :=
  { name := some "John Doe"
    phone := some "12345"
    items := some [{ lessonId := some exOid, quantity := some (BVal.num 2) }] }

/-- A POST /orders body failing the name check. -/
def exBadOrder : OrderBody :=
  { name := some "John123"
    phone := some "12345"
    items := some [{ lessonId := some exOid, quantity := some (BVal.num 2) }] }

/-! ### Helper lemmas about POST /orders -/

lemma postOrders_of_valid (b : OrderBody) (now : Nat) (st : StoreState)
    (h : validOrder b = true) :
    postOrders b now st =
      ({ status := 201, error := none, created := some (mkOrderDoc b now st) },
       { st with orders := st.orders ++ [mkOrderDoc b now st], nextId := st.nextId + 1 }) := by
  cases hbi : b.items with
  | none => simp [validOrder, hbi] at h
  | some its =>
    simp only [validOrder, hbi, Bool.and_eq_true, decide_eq_true_eq] at h
    obtain ⟨⟨hn, hp⟩, he, hc⟩ := h
    have hne : its ≠ [] := by simpa using he
    simp [postOrders, hbi, hn, hp, hne, hc]

lemma postOrders_of_invalid (b : OrderBody) (now : Nat) (st : StoreState)
    (h : validOrder b = false) :
    (postOrders b now st).2 = st ∧ (postOrders b now st).1.status ≠ 201 := by
  unfold postOrders
  cases hn : nameOk b.name with
  | false => simp [hn]
  | true =>
    cases hp : phoneOk b.phone with
    | false => simp [hn, hp]
    | true =>
      cases hbi : b.items with
      | none => simp [hn, hp]
      | some its =>
        simp only [validOrder, hbi, hn, hp, Bool.true_and, Bool.and_eq_false_iff,
          Bool.not_eq_true', decide_eq_false_iff_not] at h
        cases he : its.isEmpty with
        | true => simp [he]
        | false =>
          rcases h with h | h
          · rw [he] at h; exact absurd h (by decide)
          · cases hc : checkItems its
            case passed => exact absurd hc h
            all_goals simp [he, hc]

/-! ### Claim theorems -/

/-- C1 (code_bug evaluation): a POST /orders request with valid name and
phone and a single item whose `lessonId` is present but does not parse as
a store identifier is answered with the 500 "Failed to create order"
(`createFromHexString` throws into the route's catch), not with the 400
"Invalid lessonId" the spec promises; no order document is persisted. -/
theorem c1_malformed_lessonId_is_500 :
    postOrders
        { name := some "John"
          phone := some "123"
          items := some [{ lessonId := some "not-a-valid-id", quantity := some (BVal.num 1) }] }
        0 emptyState =
      ({ status := 500, error := some "Failed to create order", created := none },
       emptyState) := by
  decide

/-- C5: GET /search with an absent or empty query string returns exactly
what GET /lessons returns: the full lesson collection. -/
theorem search_empty_query_eq_lessons (st : StoreState) (q : Option String)
    (h : q = none ∨ q = some "") :
    searchLessons q st = getLessons st := by
  rcases h with h | h <;> subst h <;> rfl

/-- Witness for C5 at a concrete store and both trigger queries. -/
theorem search_empty_query_eq_lessons_witness :
    ((none : Option String) = none ∨ (none : Option String) = some "") ∧
      searchLessons none exState = getLessons exState ∧
      searchLessons (some "") exState = getLessons exState :=
  ⟨Or.inl rfl,
   search_empty_query_eq_lessons exState none (Or.inl rfl),
   search_empty_query_eq_lessons exState (some "") (Or.inr rfl)⟩

/-- C8: whenever POST /orders answers a 400 client error, the order
collection is untouched — the rejected request has no partial effect. -/
theorem postOrders_400_no_partial_effect (b : OrderBody) (now : Nat) (st : StoreState)
    (h : (postOrders b now st).1.status = 400) :
    (postOrders b now st).2.orders = st.orders := by
  cases hv : validOrder b with
  | true =>
    rw [postOrders_of_valid b now st hv] at h
    simp at h
  | false =>
    rw [(postOrders_of_invalid b now st hv).1]

/-- Witness for C8: a concrete rejected request leaves the store as it
was. -/
theorem postOrders_400_no_partial_effect_witness :
    (postOrders exBadOrder 0 exState).1.status = 400 ∧
      (postOrders exBadOrder 0 exState).2.orders = exState.orders :=
  ⟨by decide, postOrders_400_no_partial_effect exBadOrder 0 exState (by decide)⟩

/-- C9: submitting one valid POST /orders payload twice succeeds twice,
appends two separate order documents, and the two created documents carry
distinct server-assigned identifiers — no deduplication happens. -/
theorem postOrders_no_dedup (b : OrderBody) (st : StoreState) (t1 t2 : Nat)
    (h : (postOrders b t1 st).1.status = 201) :
    (postOrders b t2 (postOrders b t1 st).2).1.status = 201 ∧
      (postOrders b t2 (postOrders b t1 st).2).2.orders.length = st.orders.length + 2 ∧
      ∃ d1 d2, (postOrders b t1 st).1.created = some d1 ∧
        (postOrders b t2 (postOrders b t1 st).2).1.created = some d2 ∧
        d1._id ≠ d2._id := by
  have hv : validOrder b = true := by
    cases hv : validOrder b with
    | true => rfl
    | false => exact absurd h (postOrders_of_invalid b t1 st hv).2
  rw [postOrders_of_valid b t1 st hv]
  rw [postOrders_of_valid b t2 _ hv]
  refine ⟨rfl, by simp, mkOrderDoc b t1 st, _, rfl, rfl, ?_⟩
  simp [mkOrderDoc]

/-- Witness for C9 at a concrete valid payload and store. -/
theorem postOrders_no_dedup_witness :
    (postOrders exValidOrder 3 exState).1.status = 201 ∧
      ((postOrders exValidOrder 5 (postOrders exValidOrder 3 exState).2).1.status = 201 ∧
        (postOrders exValidOrder 5 (postOrders exValidOrder 3 exState).2).2.orders.length =
          exState.orders.length + 2 ∧
        ∃ d1 d2, (postOrders exValidOrder 3 exState).1.created = some d1 ∧
          (postOrders exValidOrder 5 (postOrders exValidOrder 3 exState).2).1.created = some d2 ∧
          d1._id ≠ d2._id) :=
  ⟨by decide, postOrders_no_dedup exValidOrder exState 3 5 (by decide)⟩

/-! ### The order-validation cascade, stated the way the spec words it
(a fixed list of checks, first failure wins) -/

/-- Outcome of handling a POST /orders request, abstracted from the
response: success (201), a client error (400 with its message), or a
server error (500 with its message). -/
inductive Outcome where
  | success
  | clientErr (msg : String)
  | serverErr (msg : String)
deriving DecidableEq, Repr

/-- The claim's per-item quantity condition: quantity is a positive
integer. -/
def quantityPositive : Option BVal → Bool
  | some (BVal.num k) => decide (0 < k)
  | _ => false

/-- The two checks of one item, in the claim's order: lessonId first,
then quantity.  A present, nonempty but malformed lessonId produces the
server error (the thrown `createFromHexString`). -/
def itemEvents (it : OrderItem) : List (Option Outcome) :=
  [ (match it.lessonId with
     | none => some (Outcome.clientErr "Invalid lessonId")
     | some lid =>
       if lid = "" then some (Outcome.clientErr "Invalid lessonId")
       else if isValidHex24 lid then none
       else some (Outcome.serverErr "Failed to create order")),
    if quantityPositive it.quantity then none
    else some (Outcome.clientErr "Invalid quantity") ]

/-- The full ordered check list of the claim: name, phone, items
non-empty, then the per-item checks in list order. -/
def specEvents (b : OrderBody) : List (Option Outcome) :=
  [ if nameOk b.name then none else some (Outcome.clientErr "Invalid name"),
    if phoneOk b.phone then none else some (Outcome.clientErr "Invalid phone"),
    (match b.items with
     | none => some (Outcome.clientErr "No items in order")
     | some its =>
       if its.isEmpty then some (Outcome.clientErr "No items in order") else none) ] ++
    (match b.items with
     | none => []
     | some its => (its.map itemEvents).flatten)

/-- First failing check wins; no failure means success. -/
def specOutcome (b : OrderBody) : Outcome :=
  (((specEvents b).filterMap id).head?).getD Outcome.success

/-- Abstract a POST /orders response to its outcome. -/
def outcomeOfResponse (r : OrdersResponse) : Outcome :=
  if r.status = 201 then Outcome.success
  else if r.status = 500 then Outcome.serverErr (r.error.getD "")
  else Outcome.clientErr (r.error.getD "")

/-- Outcome of the item-validation loop alone. -/
def chkOutcome : ItemsCheck → Outcome
  | ItemsCheck.passed => Outcome.success
  | ItemsCheck.badLessonId => Outcome.clientErr "Invalid lessonId"
  | ItemsCheck.badQuantity => Outcome.clientErr "Invalid quantity"
  | ItemsCheck.thrown => Outcome.serverErr "Failed to create order"

lemma checkItems_events (its : List OrderItem) :
    chkOutcome (checkItems its) =
      ((((its.map itemEvents).flatten).filterMap id).head?).getD Outcome.success := by
  induction its with
  | nil => rfl
  | cons it rest ih =>
    simp only [List.map_cons, List.flatten_cons, List.filterMap_append, List.head?_append]
    cases hl : it.lessonId with
    | none => simp [checkItems, itemEvents, hl, chkOutcome]
    | some lid =>
      by_cases hempty : lid = ""
      · simp [checkItems, itemEvents, hl, hempty, chkOutcome]
      · by_cases hhex : isValidHex24 lid
        · cases hq : it.quantity with
          | none =>
            simp [checkItems, itemEvents, hl, hempty, hhex, hq, quantityPositive,
              numberIsNaNObjectId, chkOutcome]
          | some v =>
            cases v with
            | str s =>
              simp [checkItems, itemEvents, hl, hempty, hhex, hq, quantityPositive,
                numberIsNaNObjectId, chkOutcome]
            | null =>
              simp [checkItems, itemEvents, hl, hempty, hhex, hq, quantityPositive,
                numberIsNaNObjectId, chkOutcome]
            | num k =>
              by_cases hk : k ≤ 0
              · have hk2 : ¬ (0 < k) := by omega
                simp [checkItems, itemEvents, hl, hempty, hhex, hq, quantityPositive,
                  numberIsNaNObjectId, hk, hk2, chkOutcome]
              · have hk2 : 0 < k := by omega
                simp only [checkItems, itemEvents, hl, hempty, hhex, hq, quantityPositive,
                  numberIsNaNObjectId, hk, hk2]
                simpa [itemEvents] using ih
        · simp [checkItems, itemEvents, hl, hempty, hhex, chkOutcome]

/-- C2 (amended): POST /orders applies its checks in the fixed order —
name, phone, items non-empty, then per item lessonId before quantity —
and the first failing check determines the response, each check with its
own distinct message; the one deviation from the claim as written is that
a present, nonempty but malformed lessonId yields the 500 server error
"Failed to create order" instead of the 400 "Invalid lessonId". -/
theorem postOrders_first_failure_wins (b : OrderBody) (now : Nat) (st : StoreState) :
    outcomeOfResponse (postOrders b now st).1 = specOutcome b := by
  cases hn : nameOk b.name with
  | false => simp [postOrders, outcomeOfResponse, specOutcome, specEvents, hn]
  | true =>
    cases hp : phoneOk b.phone with
    | false => simp [postOrders, outcomeOfResponse, specOutcome, specEvents, hn, hp]
    | true =>
      cases hbi : b.items with
      | none => simp [postOrders, outcomeOfResponse, specOutcome, specEvents, hn, hp, hbi]
      | some its =>
        cases he : its.isEmpty with
        | true => simp [postOrders, outcomeOfResponse, specOutcome, specEvents, hn, hp, hbi, he]
        | false =>
          have h := checkItems_events its
          have hL : outcomeOfResponse (postOrders b now st).1 = chkOutcome (checkItems its) := by
            cases hc : checkItems its <;>
              simp [postOrders, outcomeOfResponse, hn, hp, hbi, he, hc, chkOutcome]
          rw [hL, h]
          simp [specOutcome, specEvents, hn, hp, hbi, he]

/-- C2 counterexample: with valid name and phone, a first item whose
lessonId is present but malformed is answered 500, not with the 400
"Invalid lessonId" that the claim's ordered check list prescribes. -/
theorem c2_counterexample :
    (postOrders
        { name := some "Ann"
          phone := some "7"
          items := some [{ lessonId := some "12", quantity := some (BVal.num 3) }] }
        0 emptyState).1 =
      { status := 500, error := some "Failed to create order", created := none } ∧
    (postOrders
        { name := some "Ann"
          phone := some "7"
          items := some [{ lessonId := some "12", quantity := some (BVal.num 3) }] }
        0 emptyState).1.status ≠ 400 := by
  decide

/-! ### Helper lemmas about PUT /lessons/:id -/

lemma updateFirst_fst (ls : List Lesson) (idv : DocId) (s : SetDoc) :
    (updateFirst ls idv s).1 =
      (ls.find? (fun l => decide (l._id = idv))).map (fun l => applySet l s) := by
  induction ls with
  | nil => rfl
  | cons l rest ih =>
    by_cases h : l._id = idv
    · simp [updateFirst, List.find?, h]
    · simp [updateFirst, List.find?, h, ih]

lemma updateFirst_none (ls : List Lesson) (idv : DocId) (s : SetDoc)
    (h : ls.find? (fun l => decide (l._id = idv)) = none) :
    updateFirst ls idv s = (none, ls) := by
  induction ls with
  | nil => rfl
  | cons l rest ih =>
    simp only [List.find?, decide_eq_true_eq] at h
    rcases hd : decide (l._id = idv) with _ | _
    · rw [hd] at h
      simp only [cond_false] at h
      have hne : ¬ l._id = idv := by simpa using hd
      simp [updateFirst, hne, ih h]
    · rw [hd] at h
      simp at h

lemma putLessonV1_found (st : StoreState) (id : String) (body : List (String × BVal))
    (oidv : DocId) (old : Lesson)
    (hid : parseObjectId id = some oidv)
    (hne : (buildSet body).isEmptySet = false)
    (hfind : st.lessons.find? (fun l => decide (l._id = oidv)) = some old) :
    (putLessonV1 st id body).1 =
      { status := 200, error := none, doc := some (applySet old (buildSet body)) } := by
  unfold putLessonV1
  rw [hid]
  rcases hu : updateFirst st.lessons oidv (buildSet body) with ⟨r, ls2⟩
  have hr : r = some (applySet old (buildSet body)) := by
    have := updateFirst_fst st.lessons oidv (buildSet body)
    rw [hu, hfind] at this
    simpa using this
  subst hr
  simp [hne, hu]

lemma buildSet_cons_not_allowed (k : String) (v : BVal) (body : List (String × BVal))
    (hk : k ∉ allowedFields) :
    buildSet ((k, v) :: body) = buildSet body := by
  simp only [allowedFields, List.mem_cons, List.not_mem_nil, or_false, not_or] at hk
  obtain ⟨h1, h2, h3, h4, h5⟩ := hk
  have hb1 : ("subject" == k) = false := beq_eq_false_iff_ne.mpr fun h => h1 h.symm
  have hb2 : ("location" == k) = false := beq_eq_false_iff_ne.mpr fun h => h2 h.symm
  have hb3 : ("price" == k) = false := beq_eq_false_iff_ne.mpr fun h => h3 h.symm
  have hb4 : ("spaces" == k) = false := beq_eq_false_iff_ne.mpr fun h => h4 h.symm
  have hb5 : ("image" == k) = false := beq_eq_false_iff_ne.mpr fun h => h5 h.symm
  simp [buildSet, List.lookup, hb1, hb2, hb3, hb4, hb5]

/-- C3: a valid partial update (well-formed id, at least one allow-listed
field, matching lesson) answers 200 with a document that carries the
requested field values and is otherwise the pre-update lesson unchanged,
`_id` included. -/
theorem put_update_frame (st : StoreState) (id : String) (body : List (String × BVal))
    (oidv : DocId) (old : Lesson)
    (hid : parseObjectId id = some oidv)
    (hne : (buildSet body).isEmptySet = false)
    (hfind : st.lessons.find? (fun l => decide (l._id = oidv)) = some old) :
    ∃ d, (putLessonV1 st id body).1 = { status := 200, error := none, doc := some d } ∧
      d._id = old._id ∧
      d.subject = (body.lookup "subject").getD old.subject ∧
      d.location = (body.lookup "location").getD old.location ∧
      d.price = (body.lookup "price").getD old.price ∧
      d.spaces = (body.lookup "spaces").getD old.spaces ∧
      d.image = (body.lookup "image").getD old.image :=
  ⟨applySet old (buildSet body),
   putLessonV1_found st id body oidv old hid hne hfind,
   rfl, rfl, rfl, rfl, rfl, rfl⟩

/-- Witness for C3: updating only `spaces` of the sample lesson returns
the lesson with the new `spaces` and all other fields as before. -/
theorem put_update_frame_witness :
    parseObjectId exOid = some (DocId.oid exOid) ∧
      (buildSet [("spaces", BVal.num 3)]).isEmptySet = false ∧
      exState.lessons.find? (fun l => decide (l._id = DocId.oid exOid)) = some exLesson ∧
      ∃ d, (putLessonV1 exState exOid [("spaces", BVal.num 3)]).1 =
          { status := 200, error := none, doc := some d } ∧
        d._id = exLesson._id ∧
        d.subject = (([("spaces", BVal.num 3)] : List (String × BVal)).lookup "subject").getD exLesson.subject ∧
        d.location = (([("spaces", BVal.num 3)] : List (String × BVal)).lookup "location").getD exLesson.location ∧
        d.price = (([("spaces", BVal.num 3)] : List (String × BVal)).lookup "price").getD exLesson.price ∧
        d.spaces = (([("spaces", BVal.num 3)] : List (String × BVal)).lookup "spaces").getD exLesson.spaces ∧
        d.image = (([("spaces", BVal.num 3)] : List (String × BVal)).lookup "image").getD exLesson.image :=
  ⟨by decide, by decide, by decide,
   put_update_frame exState exOid [("spaces", BVal.num 3)] (DocId.oid exOid) exLesson
     (by decide) (by decide) (by decide)⟩

/-- C6 counterexample: a request whose identifier is not a valid store
identifier and whose body holds only a disallowed field is answered 400
"Invalid id", not the 400 "No valid fields to update" the claim asserts
for every such request. -/
theorem c6_counterexample :
    putLessonV1 emptyState "zzz" [("foo", BVal.num 1)] =
      ({ status := 400, error := some "Invalid id", doc := none }, emptyState) ∧
    (putLessonV1 emptyState "zzz" [("foo", BVal.num 1)]).1.error ≠
      some "No valid fields to update" := by
  decide

/-- C6 (amended): for every PUT /lessons/:id request, fields outside the
allow-list are silently ignored (prepending such a field changes nothing
in either copy of the handler), and — provided the identifier parses as a
valid store identifier — a body with zero allow-listed fields is answered
400 "No valid fields to update" with the store unchanged. -/
theorem put_allowlist_filter (st : StoreState) (id : String) (body : List (String × BVal)) :
    (∀ k v, k ∉ allowedFields →
        putLessonV1 st id ((k, v) :: body) = putLessonV1 st id body ∧
        putLessonV2 st id ((k, v) :: body) = putLessonV2 st id body) ∧
    ((parseObjectId id).isSome = true → (buildSet body).isEmptySet = true →
        putLessonV1 st id body =
          ({ status := 400, error := some "No valid fields to update", doc := none }, st) ∧
        putLessonV2 st id body =
          ({ status := 400, error := some "No valid fields to update", doc := none }, st)) := by
  refine ⟨fun k v hk => ?_, fun hs he => ?_⟩
  · have hbs := buildSet_cons_not_allowed k v body hk
    constructor
    · unfold putLessonV1
      rw [hbs]
    · unfold putLessonV2
      rw [hbs]
  · obtain ⟨oidv, hid⟩ := Option.isSome_iff_exists.mp hs
    constructor
    · unfold putLessonV1
      rw [hid]
      simp [he]
    · unfold putLessonV2
      rw [hid]
      simp [he]

/-- Witness for C6 at a concrete valid identifier: a disallowed field is
ignored and an effectively empty body is rejected without effect. -/
theorem put_allowlist_filter_witness :
    ("foo" ∉ allowedFields ∧
      putLessonV1 exState exOid [("foo", BVal.num 1)] = putLessonV1 exState exOid [] ∧
      putLessonV2 exState exOid [("foo", BVal.num 1)] = putLessonV2 exState exOid []) ∧
    ((parseObjectId exOid).isSome = true ∧
      (buildSet ([] : List (String × BVal))).isEmptySet = true ∧
      putLessonV1 exState exOid [] =
        ({ status := 400, error := some "No valid fields to update", doc := none }, exState) ∧
      putLessonV2 exState exOid [] =
        ({ status := 400, error := some "No valid fields to update", doc := none }, exState)) :=
  ⟨⟨by decide,
    (put_allowlist_filter exState exOid []).1 "foo" (BVal.num 1) (by decide)⟩,
   by decide, by decide,
   (put_allowlist_filter exState exOid []).2 (by decide) (by decide)⟩

/-- C7 counterexample: a request with a well-formed identifier matching
no lesson but a body with zero allow-listed fields is answered 400
"No valid fields to update", not the 404 the claim asserts for every
valid-but-unmatched identifier. -/
theorem c7_counterexample :
    putLessonV2 emptyState exOid [("bar", BVal.num 2)] =
      ({ status := 400, error := some "No valid fields to update", doc := none }, emptyState) ∧
    (putLessonV2 emptyState exOid [("bar", BVal.num 2)]).1.status ≠ 404 := by
  decide

/-- C7 (amended): an identifier that does not parse as a store identifier
is answered 400 "Invalid id" with the store unchanged (both handler
copies); a well-formed identifier whose request carries at least one
allow-listed field but matches no lesson — neither by ObjectId nor, in
the second copy, by the raw-string fallback — is answered 404
"Lesson not found" with the store unchanged. -/
theorem put_id_errors (st : StoreState) (id : String) (body : List (String × BVal)) :
    (parseObjectId id = none →
        putLessonV1 st id body = ({ status := 400, error := some "Invalid id", doc := none }, st) ∧
        putLessonV2 st id body = ({ status := 400, error := some "Invalid id", doc := none }, st)) ∧
    (∀ oidv, parseObjectId id = some oidv →
        (buildSet body).isEmptySet = false →
        st.lessons.find? (fun l => decide (l._id = oidv)) = none →
        st.lessons.find? (fun l => decide (l._id = DocId.strId id)) = none →
        putLessonV1 st id body =
          ({ status := 404, error := some "Lesson not found", doc := none }, st) ∧
        putLessonV2 st id body =
          ({ status := 404, error := some "Lesson not found", doc := none }, st)) := by
  refine ⟨fun hid => ?_, fun oidv hid hne hf1 hf2 => ?_⟩
  · constructor
    · unfold putLessonV1
      rw [hid]
    · unfold putLessonV2
      rw [hid]
  · constructor
    · simp only [putLessonV1, hid]
      rw [updateFirst_none st.lessons oidv (buildSet body) hf1]
      simp [hne]
    · simp only [putLessonV2, hid]
      rw [updateFirst_none st.lessons oidv (buildSet body) hf1,
        updateFirst_none st.lessons (DocId.strId id) (buildSet body) hf2]
      simp [hne]

/-- Witness for C7 at concrete inputs: an unparsable identifier and a
well-formed identifier over the empty store. -/
theorem put_id_errors_witness :
    (parseObjectId "zzz" = none ∧
      putLessonV1 exState "zzz" [("spaces", BVal.num 1)] =
        ({ status := 400, error := some "Invalid id", doc := none }, exState) ∧
      putLessonV2 exState "zzz" [("spaces", BVal.num 1)] =
        ({ status := 400, error := some "Invalid id", doc := none }, exState)) ∧
    (putLessonV1 emptyState exOid [("spaces", BVal.num 1)] =
        ({ status := 404, error := some "Lesson not found", doc := none }, emptyState) ∧
      putLessonV2 emptyState exOid [("spaces", BVal.num 1)] =
        ({ status := 404, error := some "Lesson not found", doc := none }, emptyState)) :=
  ⟨⟨by decide,
    (put_id_errors exState "zzz" [("spaces", BVal.num 1)]).1 (by decide)⟩,
   (put_id_errors emptyState exOid [("spaces", BVal.num 1)]).2 (DocId.oid exOid)
     (by decide) (by decide) (by decide) (by decide)⟩

/-! ### Helper lemmas about trimming and search -/

lemma dropWhile_idem (p : Char → Bool) (l : List Char) :
    (l.dropWhile p).dropWhile p = l.dropWhile p := by
  induction l with
  | nil => rfl
  | cons c t ih =>
    by_cases h : p c
    · simp [List.dropWhile_cons, h, ih]
    · simp [List.dropWhile_cons, h]

lemma dropEndWhile_idem (p : Char → Bool) (l : List Char) :
    dropEndWhile p (dropEndWhile p l) = dropEndWhile p l := by
  induction l with
  | nil => rfl
  | cons c t ih =>
    by_cases h : ((dropEndWhile p t).isEmpty && p c) = true
    · simp only [dropEndWhile, h, if_true]
    · simp only [dropEndWhile, h, if_false, ih]

lemma dropWhile_dropEndWhile (p : Char → Bool) (l : List Char)
    (h : l.dropWhile p = l) :
    (dropEndWhile p l).dropWhile p = dropEndWhile p l := by
  cases l with
  | nil => rfl
  | cons c t =>
    have hc : p c = false := by
      cases hpc : p c with
      | false => rfl
      | true =>
        rw [List.dropWhile_cons, if_pos hpc] at h
        have hlen := congrArg List.length h
        have hle := (List.dropWhile_sublist (p := p) (l := t)).length_le
        simp only [List.length_cons] at hlen
        omega
    simp only [dropEndWhile, hc, Bool.and_false, if_false]
    simp [List.dropWhile_cons, hc]

lemma jsTrim_idem (s : String) : jsTrim (jsTrim s) = jsTrim s := by
  unfold jsTrim
  have hm : ∀ cs : List Char, (String.mk cs).toList = cs := fun _ => rfl
  rw [hm]
  have h1 : (s.toList.dropWhile jsWhitespace).dropWhile jsWhitespace =
      s.toList.dropWhile jsWhitespace := dropWhile_idem _ _
  rw [dropWhile_dropEndWhile _ _ h1, dropEndWhile_idem]

lemma jsTrim_of_all_whitespace (s : String) (h : s.toList.all jsWhitespace = true) :
    jsTrim s = "" := by
  unfold jsTrim
  have hd : s.toList.dropWhile jsWhitespace = [] := by
    rw [List.dropWhile_eq_nil_iff]
    intro x hx
    exact List.all_eq_true.mp h x hx
  rw [hd]
  rfl

/-- C10: GET /search trims the query before any other processing — an
all-whitespace query behaves exactly like an empty one (all lessons come
back), and in general the response to a query equals the response to its
trimmed form, so surrounding whitespace never takes part in matching. -/
theorem search_trims_query (q : String) (st : StoreState) :
    (q.toList.all jsWhitespace = true → searchLessons (some q) st = getLessons st) ∧
      searchLessons (some q) st = searchLessons (some (jsTrim q)) st := by
  constructor
  · intro h
    have ht := jsTrim_of_all_whitespace q h
    simp [searchLessons, ht, getLessons]
  · show searchLessons (some q) st = searchLessons (some (jsTrim q)) st
    unfold searchLessons
    simp only [Option.getD_some]
    rw [jsTrim_idem]

/-- Witness for C10 at a concrete all-whitespace query. -/
theorem search_trims_query_witness :
    (" ".toList.all jsWhitespace = true) ∧
      searchLessons (some " ") exState = getLessons exState ∧
      searchLessons (some " ") exState = searchLessons (some (jsTrim " ")) exState :=
  ⟨by decide,
   (search_trims_query " " exState).1 (by decide),
   (search_trims_query " " exState).2⟩

lemma jsNumEq_int (v : BVal) (m : Int) :
    (jsNumEq v (JsNum.int m) = true) ↔ v = BVal.num m := by
  cases v <;> simp [jsNumEq]

lemma jsNumEq_nonInt (v : BVal) : jsNumEq v JsNum.nonInt = false := by
  cases v <;> rfl

/-- C4: for a nonempty (already-trimmed) query, a lesson is in the search
result exactly when it is in the store and at least one `$or` clause
holds: subject contains the query case-insensitively, location does, or —
when the query parses as a number whose value is an integer — price or
spaces equals that number (a stored integer field never equals a
non-integer query number). -/
theorem search_membership (q : String) (st : StoreState) (l : Lesson)
    (hq : q ≠ "") (ht : jsTrim q = q) :
    l ∈ searchLessons (some q) st ↔
      l ∈ st.lessons ∧
        ((∃ s, l.subject = BVal.str s ∧ containsCI s q = true) ∨
         (∃ s, l.location = BVal.str s ∧ containsCI s q = true) ∨
         (∃ n, jsNumber q = some (JsNum.int n) ∧
           (l.price = BVal.num n ∨ l.spaces = BVal.num n))) := by
  unfold searchLessons
  simp only [Option.getD_some, ht, if_neg hq]
  rw [List.mem_filter]
  refine and_congr_right fun _ => ?_
  unfold lessonMatches regexClause
  cases hs : l.subject <;> cases hl2 : l.location <;>
    (cases hnm : jsNumber q with
     | none => simp [hs, hl2, hnm, or_assoc]
     | some jq =>
       cases jq <;> simp [hs, hl2, hnm, jsNumEq_int, jsNumEq_nonInt, or_assoc])

/-- Witness for C4: the query "90" finds the sample lesson through its
price clause. -/
theorem search_membership_witness :
    ("90" ≠ "" ∧ jsTrim "90" = "90") ∧
      (exLesson ∈ searchLessons (some "90") exState ↔
        exLesson ∈ exState.lessons ∧
          ((∃ s, exLesson.subject = BVal.str s ∧ containsCI s "90" = true) ∨
           (∃ s, exLesson.location = BVal.str s ∧ containsCI s "90" = true) ∨
           (∃ n, jsNumber "90" = some (JsNum.int n) ∧
             (exLesson.price = BVal.num n ∨ exLesson.spaces = BVal.num n)))) :=
  ⟨⟨by decide, by decide⟩,
   search_membership "90" exState exLesson (by decide) (by decide)⟩

end Woloo
